import Mathlib

/-
Verification of the `describe_err` library (src/src/lib.rs): an error wrapper
`Described<E>` pairing a description `String` with an original error, the
`describe` factory producing a closure for `map_err`, and the `describing!`
macro which stringifies the wrapped expression.
-/

/-- A dynamic-dispatch view of a Rust error trait object
(a reference of type dyn Error + 'static): through the `std::error::Error`
trait interface an error generically exposes its `Display` message and an
optional `source`, itself another trait object. -/
inductive DynError : Type where
  | mk (msg : String) (src : Option DynError)

/-- The `std::error::Error` capability: a type that can be rendered as a
single-line message (`Display`) and optionally exposes a cause through
`source`, returned as a trait-object view. -/
class RustError (E : Type) where
  display : E → String
  sourceDyn : E → Option DynError

/-- Coercion of a typed error value to its trait-object (dyn Error) view:
what generic chain-walking code observes of it. -/
def RustError.toDyn {E : Type} [RustError E] (e : E) : DynError :=
  DynError.mk (RustError.display e) (RustError.sourceDyn e)

/-- One step down a cause chain at the trait-object level: the `source` of
the current error, as used by generic error-chain-walking facilities. -/
def chainStep : DynError → Option DynError
  | DynError.mk _ src => src

/-- Walking `n` steps down the cause chain from a trait-object error. -/
def walk : Nat → DynError → Option DynError
  | 0, e => some e
  | Nat.succ n, e => (chainStep e).bind (walk n)

/-- Embedding of `pub struct Described<E: error::Error + 'static>` from
src/src/lib.rs lines 82-88: a `description: String` field and an
`original: E` field marked with the thiserror attribute `#[source]`. -/
structure Described (E : Type) [RustError E] where
  description : String
  original : E

/-- The `Display` and `source` implementations that
`#[derive(Error)]` with `#[error("{description}: {original}")]` and the
`#[source]` attribute generate for `Described<E>`: the message is the
description, a colon-space separator, and the original error's own message;
the source is the `original` field viewed as a trait object. -/
instance instRustErrorDescribed {E : Type} [RustError E] : RustError (Described E) where
  display w := w.description ++ ": " ++ RustError.display w.original
  sourceDyn w := some (RustError.toDyn w.original)

/-- Value-level content of the thiserror-generated `source` method of
`Described<E>`, which returns `Some` of a reference to the `original` field
(coerced to a trait object); here we keep the referenced value at its
concrete type. -/
def Described.source {E : Type} [RustError E] (w : Described E) : Option E :=
  some w.original

/-- Embedding of `pub fn describe<E: error::Error>(description: impl Into<String>)
-> impl FnOnce(E) -> Described<E>` from src/src/lib.rs lines 114-117: the
argument is converted into an owned `String` (for a `String` argument,
`Into::into` is the identity) and captured by the returned closure, which
wraps an incoming error into a `Described` struct literal. -/
def describe {E : Type} [RustError E] (description : String) : E → Described E :=
  let description : String := description
  fun original => { description := description, original := original }

/-- Embedding of Rust's `Result<T, E>`. -/
inductive RResult (T E : Type) where
  | ok (v : T)
  | err (e : E)

/-- Embedding of `Result::map_err` from the Rust standard library: apply the
function to the error branch, pass the success value through unchanged. -/
def RResult.mapErr {T E F : Type} (f : E → F) : RResult T E → RResult T F
  | RResult.ok v => RResult.ok v
  | RResult.err e => RResult.err (f e)

/-- Embedding of the `describing!` macro from src/src/lib.rs lines 129-135.
The macro expands to a block binding the expression once and mapping its
error branch through `describe(stringify!($expr))`; in this shallow
embedding the already-evaluated expression value is the `expr` argument and
the verbatim source text produced by `stringify!` is the `text` argument. -/
def describing {T E : Type} [RustError E] (text : String) (expr : RResult T E) :
    RResult T (Described E) :=
  expr.mapErr (describe text)

/-- Instrumented embedding of the `describing!` macro used to state the
evaluation-count contract: the wrapped expression is modelled as a function
from an evaluation counter to a value and an updated counter, and the macro
body evaluates it exactly once (the expansion binds `$expr` to a local
variable once and only uses that variable). -/
def describingCounted {T E : Type} [RustError E]
    (expr : Nat → RResult T E × Nat) (text : String) (n : Nat) :
    RResult T (Described E) × Nat :=
  let p := expr n
  (p.1.mapErr (describe text), p.2)

/-- Description of the error branch of a `describing!` result, when the
result is an error. -/
def errDescription {T E : Type} [RustError E] : RResult T (Described E) → Option String
  | RResult.ok _ => none
  | RResult.err w => some w.description

/-- Original error held by the error branch of a `describing!` result, when
the result is an error. -/
def errOriginal {T E : Type} [RustError E] : RResult T (Described E) → Option E
  | RResult.ok _ => none
  | RResult.err w => some w.original

/-- The public API calls available on an existing `Described` instance:
`description()` and `original()` from src/src/lib.rs lines 90-103. Both take
`&self`, so neither can mutate the instance. -/
inductive AccessorCall : Type where
  | getDescription
  | getOriginal

/-- Running one accessor call on a `Described` instance: the call returns a
borrowed view of the corresponding field and leaves the instance as it was
(both methods take `&self`; the struct fields are private and no mutating
method exists). -/
def runCall {E : Type} [RustError E] (w : Described E) :
    AccessorCall → (String ⊕ E) × Described E
  | AccessorCall.getDescription => (Sum.inl w.description, w)
  | AccessorCall.getOriginal => (Sum.inr w.original, w)

/-- Running a sequence of accessor calls on a `Described` instance,
threading the instance state through the sequence. -/
def runCalls {E : Type} [RustError E] (w : Described E) :
    List AccessorCall → List (String ⊕ E) × Described E
  | [] => ([], w)
  | c :: cs =>
    let p := runCall w c
    let q := runCalls p.2 cs
    (p.1 :: q.1, q.2)

/-- The empty description string, permitted by `describe`. -/
def emptyString : String := ""

/-- C1: for every description string d and every error value o, the Display
message of the wrapper constructed from d and o is exactly the concatenation
of d, the separator ": ", and the standard single-line rendering of o. -/
theorem described_display_law {E : Type} [RustError E] (d : String) (o : E) :
    RustError.display (Described.mk d o) = d ++ ": " ++ RustError.display o :=
  rfl

/-- C2: for every description string d and every error value o, the wrapper
constructed from d and o satisfies description() = d and original() = o, the
latter returning the wrapped value unchanged at its exact original type. -/
theorem described_accessors_law {E : Type} [RustError E] (d : String) (o : E) :
    (Described.mk d o).description = d ∧ (Described.mk d o).original = o :=
  ⟨rfl, rfl⟩

/-- C3: for every description d and error o, applying the closure returned
by describe(d) to o yields a value equal to the wrapper constructed directly
from d and o. -/
theorem describe_eq_construct {E : Type} [RustError E] (d : String) (o : E) :
    describe d o = Described.mk d o :=
  rfl

/-- C4: for every description d and error o, the source exposed by the
wrapper Described.mk d o is exactly o: at the value level the generated
source method returns the original field unchanged, and one step of generic
trait-object chain walking from the wrapper reaches o's trait-object view. -/
theorem described_source_law {E : Type} [RustError E] (d : String) (o : E) :
    (Described.mk d o).source = some o ∧
      walk 1 (RustError.toDyn (Described.mk d o)) = some (RustError.toDyn o) :=
  ⟨rfl, rfl⟩

/-- C5: the describing! macro evaluates its expression exactly once (the
instrumented expression bumps the evaluation counter by one, and so does the
whole macro body); on success the success value passes through unchanged,
and on failure with error o the result is the wrapper Described.mk text o,
where text stands for the verbatim source text stringify! produces. -/
theorem describing_once_law {T E : Type} [RustError E]
    (text : String) (v : RResult T E) (t : T) (o : E) (n : Nat) :
    (describingCounted (fun k => (v, k + 1)) text n).2 = n + 1 ∧
      describingCounted (fun k => ((RResult.ok t : RResult T E), k + 1)) text n
        = (RResult.ok t, n + 1) ∧
      describingCounted (fun k => ((RResult.err o : RResult T E), k + 1)) text n
        = (RResult.err (Described.mk text o), n + 1) :=
  ⟨rfl, rfl, rfl⟩

/-- C6: the description produced by describing! is purely syntactic: two
invocations with the same written expression text but different runtime
error values o₁ and o₂ produce identical description strings, while the
wrapped original errors are o₁ and o₂ respectively, unchanged. -/
theorem describing_syntactic_law {T E : Type} [RustError E]
    (text : String) (o₁ o₂ : E) :
    errDescription (describing text (RResult.err o₁ : RResult T E))
        = errDescription (describing text (RResult.err o₂ : RResult T E)) ∧
      errOriginal (describing text (RResult.err o₁ : RResult T E)) = some o₁ ∧
      errOriginal (describing text (RResult.err o₂ : RResult T E)) = some o₂ :=
  ⟨rfl, rfl, rfl⟩

/-- C7: construction always succeeds for every description string and error
value, with no validation of the description: describe is a total function
faithfully storing any d and o, and in particular the empty string is
permitted, producing a well-defined degenerate message that is just the
separator followed by the original error's message. -/
theorem describe_total_law {E : Type} [RustError E] (d : String) (o : E) :
    (describe d o).description = d ∧ (describe d o).original = o ∧
      describe emptyString o = Described.mk emptyString o ∧
      RustError.display (describe emptyString o) = ": " ++ RustError.display o :=
  ⟨rfl, rfl, rfl, by
    show emptyString ++ ": " ++ RustError.display o = ": " ++ RustError.display o
    simp [emptyString]⟩

/-- C8: both fields of a wrapper are fixed at construction and never mutated:
running any sequence of accessor calls on an instance constructed from d and
o returns, for each call, exactly the construction-time value (so repeated
calls always return the same values) and leaves the instance unchanged. -/
theorem described_immutable_law {E : Type} [RustError E]
    (d : String) (o : E) (calls : List AccessorCall) :
    runCalls (Described.mk d o) calls =
      (calls.map (fun c =>
        match c with
        | AccessorCall.getDescription => Sum.inl d
        | AccessorCall.getOriginal => Sum.inr o), Described.mk d o) := by
  induction calls with
  | nil => rfl
  | cons c cs ih =>
    cases c <;> simp [runCalls, runCall, ih]

/-- C10: wrappers compose into a causal chain: the doubly wrapped value
Described.mk d₁ (Described.mk d₂ o) formats as d₁, separator, d₂, separator,
then o's message, and walking the cause chain two steps from it (both at the
generic trait-object level and through the value-level source content)
reaches o unchanged. -/
theorem described_compose_law {E : Type} [RustError E]
    (d₁ d₂ : String) (o : E) :
    RustError.display (Described.mk d₁ (Described.mk d₂ o))
        = d₁ ++ ": " ++ d₂ ++ ": " ++ RustError.display o ∧
      walk 2 (RustError.toDyn (Described.mk d₁ (Described.mk d₂ o)))
        = some (RustError.toDyn o) ∧
      ((Described.mk d₁ (Described.mk d₂ o)).source.bind Described.source)
        = some o := by
  refine ⟨?_, rfl, rfl⟩
  show d₁ ++ ": " ++ (d₂ ++ ": " ++ RustError.display o)
      = d₁ ++ ": " ++ d₂ ++ ": " ++ RustError.display o
  simp [String.append_assoc]
